import Mathlib

/-!
Verification development for the grblHAL reporting and confirmation layer
(`src/GRBL/report.c`).  The C functions are shallowly embedded as pure Lean
functions over an explicit serial-output trace and an explicit system state.
Machine integers are modelled as `Nat`/`Int` with `% 2^w` where the C code
casts; floats are modelled as exact rationals (`Rat`).
-/

set_option maxRecDepth 4000
set_option synthInstance.maxHeartbeats 400000

namespace GrblReport

/-- One observable action on the HAL output channel: either a write of a
byte string (`hal.serial_write` / `hal.serial_write_string`) or a blocking
delay of the given number of milliseconds (`hal.delay_ms`). -/
inductive Event where
  | write (s : String)
  | delay (ms : Nat)
deriving DecidableEq

/-- The byte stream a trace of events puts on the serial channel
(delays write nothing). -/
def serialText : List Event → String
  | [] => ""
  | Event.write s :: rest => s ++ serialText rest
  | Event.delay _ :: rest => serialText rest

/-- Whether a trace performs any delay. -/
def hasDelay : List Event → Bool
  | [] => false
  | Event.write _ :: rest => hasDelay rest
  | Event.delay _ :: rest => true || hasDelay rest

/-- Modelled from the spec: `print_uint8_base10` lives in print.c, which is
not under src/; per the wire-protocol section it renders the value as the
decimal digits of its uint8 cast. -/
def print_uint8_base10 (n : Nat) : String :=
  Nat.repr (n % 256)

/-- Modelled from the spec: `print_uint32_base10` (print.c, not under src/)
renders the decimal digits of the uint32 value. -/
def print_uint32_base10 (n : Nat) : String :=
  Nat.repr (n % 2 ^ 32)

/-- Modelled from the spec: `printFloat` (print.c, not under src/) performs
fixed-decimal formatting: a sign for negative values, then the absolute
value rounded half-up to `n_decimal` decimal places (computed on the
rational's numerator/denominator: `⌊|v| * 10^n + 1/2⌋`), with the digits
padded so at least one digit precedes the decimal point. -/
def printFloat (v : Rat) (n_decimal : Nat) : String :=
  let m : Int := if v.num < 0 then -v.num else v.num
  let a : Nat := ((m * (10 : Int) ^ n_decimal * 2 + (v.den : Int)) / (2 * (v.den : Int))).toNat
  let s0 := Nat.repr a
  let ds : List Char := List.replicate (n_decimal + 1 - s0.length) '0' ++ s0.data
  (if v.num < 0 then "-" else "") ++ String.mk (ds.take (ds.length - n_decimal)) ++
    (if n_decimal = 0 then "" else "." ++ String.mk (ds.drop (ds.length - n_decimal)))

/-- Modelled from the spec: `printFloat_CoordValue` (print.c, not under
src/) formats a coordinate with the fixed coordinate decimal count (3 in
mm mode, the repository default). -/
def printFloat_CoordValue (v : Rat) : String :=
  printFloat v 3

/-- Modelled from the spec: `printFloat_RateValue` (print.c, not under
src/) formats a rate value with no decimals (mm mode default). -/
def printFloat_RateValue (v : Rat) : String :=
  printFloat v 0

/-- `report_util_axis_values` (report.c lines 57-64): the axis values
comma-separated, each formatted as a coordinate value. -/
def report_util_axis_values (axis_value : List Rat) : String :=
  String.intercalate "," (axis_value.map printFloat_CoordValue)

/-- Modelled from the spec: `Status_OK` (gcode.h, not under src/); the spec
fixes StatusCode 0 as the success code. -/
def Status_OK : Nat := 0

/-- Modelled from the spec: `Status_SettingReadFail` (gcode.h, not under
src/), the distinct rejection code for a settings-store read failure. -/
def Status_SettingReadFail : Nat := 7

/-- `report_status_message` (report.c lines 85-97): `ok` for the success
code, otherwise `error:` plus the decimal uint8 code, CRLF-terminated. -/
def report_status_message (status_code : Nat) : List Event :=
  if status_code = Status_OK then
    [Event.write "ok\r\n"]
  else
    [Event.write "error:", Event.write (print_uint8_base10 status_code), Event.write "\r\n"]

/-- `report_alarm_message` (report.c lines 100-106): the alarm envelope
followed by the forced 500 ms buffer-drain delay. -/
def report_alarm_message (alarm_code : Nat) : List Event :=
  [Event.write "ALARM:", Event.write (print_uint8_base10 alarm_code),
   Event.write "\r\n", Event.delay 500]

/-- `message_code_t` values recognised by report.c lines 113-171, plus a
catch-all for every other numeric code. -/
inductive MessageCode where
  | criticalEvent
  | alarmLock
  | alarmUnlock
  | enabled
  | disabled
  | safetyDoorAjar
  | checkLimits
  | programEnd
  | restoreDefaults
  | spindleRestore
  | sleepMode
  | estop
  | other (n : Nat)
deriving DecidableEq

/-- The fixed advisory string each recognised message code renders
(report.c lines 117-169); unrecognised codes render an empty body. -/
def message_body : MessageCode → String
  | MessageCode.criticalEvent => "Reset to continue"
  | MessageCode.alarmLock => "\x27$H\x27|\x27$X\x27 to unlock"
  | MessageCode.alarmUnlock => "Caution: Unlocked"
  | MessageCode.enabled => "Enabled"
  | MessageCode.disabled => "Disabled"
  | MessageCode.safetyDoorAjar => "Check Door"
  | MessageCode.checkLimits => "Check Limits"
  | MessageCode.programEnd => "Pgm End"
  | MessageCode.restoreDefaults => "Restoring defaults"
  | MessageCode.spindleRestore => "Restoring spindle"
  | MessageCode.sleepMode => "Sleeping"
  | MessageCode.estop => "Emergency stop"
  | MessageCode.other _ => ""

/-- `report_feedback_message` (report.c lines 113-171): the `[MSG:` head,
the switch body (the default case writes nothing), and the `]` CRLF
terminator. -/
def report_feedback_message (message_code : MessageCode) : List Event :=
  [Event.write "[MSG:"] ++
  (match message_code with
   | MessageCode.other _ => []
   | m => [Event.write (message_body m)]) ++
  [Event.write "]\r\n"]

/-- The machine-state tag (`sys.state`), one constructor per `STATE_*`
value handled by the report.c switch (lines 616-661). -/
inductive MachState where
  | idle
  | cycle
  | hold
  | jog
  | homing
  | estop
  | alarm
  | checkMode
  | safetyDoor
  | sleep
  | toolChange
deriving DecidableEq

/-- The busy-state mask test
`sys.state & (STATE_HOMING|STATE_CYCLE|STATE_HOLD|STATE_JOG|STATE_SAFETY_DOOR)`
of report.c lines 780 and 822. -/
def stateIsBusy : MachState → Bool
  | MachState.homing => true
  | MachState.cycle => true
  | MachState.hold => true
  | MachState.jog => true
  | MachState.safetyDoor => true
  | _ => false

/-- Modelled from the spec: `REPORT_WCO_REFRESH_BUSY_COUNT` is defined in
config.h, which is not under src/.  Per the spec, states in the busy set
get the short (more frequent) WCO refresh interval. -/
def REPORT_WCO_REFRESH_BUSY_COUNT : Nat := 10

/-- Modelled from the spec: `REPORT_WCO_REFRESH_IDLE_COUNT` (config.h, not
under src/); the long (less frequent) WCO refresh interval. -/
def REPORT_WCO_REFRESH_IDLE_COUNT : Nat := 30

/-- Modelled from the spec: `REPORT_OVR_REFRESH_BUSY_COUNT` (config.h, not
under src/); the short override refresh interval. -/
def REPORT_OVR_REFRESH_BUSY_COUNT : Nat := 10

/-- Modelled from the spec: `REPORT_OVR_REFRESH_IDLE_COUNT` (config.h, not
under src/); the long override refresh interval. -/
def REPORT_OVR_REFRESH_IDLE_COUNT : Nat := 20

/-- The report sub-state `sys.report`: the two throttle counters plus the
scaling and MPG edge flags.  `wco_counter` is only ever tested with `> 0`,
decremented and reseeded to non-negative constants (unsigned in C);
`ovr_counter` is additionally tested with `<= 0` and `< 0`, so it is
signed. -/
structure ReportState where
  wco_counter : Nat
  ovr_counter : Int
  scaling : Bool
  mpg_mode : Bool
deriving DecidableEq

/-- The slice of the global `sys` / `sys_position` state read or written by
`report_realtime_status`. -/
structure SysState where
  state : MachState
  holding_state : Nat
  parking_state : Nat
  position : List Int
  report : ReportState
  f_override : Nat
  r_override : Nat
  spindle_rpm_ovr : Nat
  spindle_rpm : Rat
  block_delete_enabled : Bool
  mpg_mode : Bool
deriving DecidableEq

/-- The slice of the g-code parser state (`gc_state`) read by report.c. -/
structure GcState where
  coord_system_xyz : List Rat
  g92_coord_offset : List Rat
  tool_length_offset : List Rat
  tool_change : Bool
deriving DecidableEq

/-- The per-report status-report configuration bits
(`settings.status_report`); field names follow settings.h usage in
report.c, including the source's `overrrides` spelling. -/
structure StatusReportMask where
  position_type : Bool
  buffer_state : Bool
  line_numbers : Bool
  feed_speed : Bool
  pin_state : Bool
  work_coord_offset : Bool
  overrrides : Bool
deriving DecidableEq

/-- The slice of `settings` read by `report_realtime_status`. -/
structure Settings where
  status_report : StatusReportMask
  steps_per_mm : List Rat
deriving DecidableEq

/-- The read-only HAL / planner / stepper inputs sampled during one status
poll (limit, control and probe pins, buffer occupancy, realtime rates,
spindle and coolant state, the scaled-axes summary). -/
structure Env where
  plan_block_buffer_available : Nat
  rx_buffer_available : Nat
  current_block_line : Option Int
  realtime_rate : Rat
  variable_spindle : Bool
  spindle_data_rpm : Option Rat
  limit_x : Bool
  limit_y : Bool
  limit_z : Bool
  ctrl_safety_door : Bool
  ctrl_reset : Bool
  ctrl_feed_hold : Bool
  ctrl_cycle_start : Bool
  ctrl_e_stop : Bool
  ctrl_block_delete : Bool
  ctrl_stop_disable : Bool
  probe_state : Bool
  spindle_on : Bool
  spindle_ccw : Bool
  coolant_flood : Bool
  coolant_mist : Bool
  g51_state : Nat
deriving DecidableEq

/-- Modelled from the spec: `system_convert_array_steps_to_mpos`
(system.c, not under src/) converts step counts to physical units by
dividing by the per-axis steps-per-mm setting. -/
def system_convert_array_steps_to_mpos (steps_per_mm : List Rat) (steps : List Int) : List Rat :=
  List.zipWith (fun st s => (st : Rat) / s) steps steps_per_mm

/-- The sub-state value appended to the state tag: `Hold` renders
`(uint8_t)sys.holding_state - 1` (uint8 wraparound subtraction, report.c
line 628); `Door` renders `(uint8_t)sys.parking_state` unchanged (line
650); no other state carries a sub-state. -/
def stateSubValue (sys : SysState) : Option Nat :=
  match sys.state with
  | MachState.hold => some ((sys.holding_state % 256 + 255) % 256)
  | MachState.safetyDoor => some (sys.parking_state % 256)
  | _ => none

/-- The base word of each machine-state tag (report.c lines 616-661). -/
def stateTagBase : MachState → String
  | MachState.idle => "Idle"
  | MachState.cycle => "Run"
  | MachState.hold => "Hold"
  | MachState.jog => "Jog"
  | MachState.homing => "Home"
  | MachState.estop => "Alarm"
  | MachState.alarm => "Alarm"
  | MachState.checkMode => "Check"
  | MachState.safetyDoor => "Door"
  | MachState.sleep => "Sleep"
  | MachState.toolChange => "Tool"

/-- The full first field of the status frame: the state tag, with the
colon-separated sub-state ordinal for Hold and Door. -/
def machineStateTag (sys : SysState) : String :=
  stateTagBase sys.state ++
    (match stateSubValue sys with
     | some n => ":" ++ Nat.repr n
     | none => "")

/-- One optional field of the `<...>` realtime status frame, in the
structured form the frame-assembly code of report.c lines 663-840 emits
them. -/
inductive RtField where
  | mposF (v : List Rat)
  | wposF (v : List Rat)
  | bf (blocks : Nat) (rx : Nat)
  | ln (n : Nat)
  | fs (rate : Rat) (rpm : Rat) (data : Option Rat)
  | fOnly (rate : Rat)
  | pn (letters : String)
  | wcoF (v : List Rat)
  | ov (f_ovr : Nat) (r_ovr : Nat) (s_ovr : Nat) (acc : Option String)
  | accTool
  | sc (g51 : Nat)
  | mpg (flag : Bool)
deriving DecidableEq

/-- A rendered status frame: the state tag plus the optional fields in
emission order. -/
structure RtFrame where
  tag : String
  fields : List RtField
deriving DecidableEq

/-- The work-coordinate-offset vector of report.c line 668:
per axis, coordinate-system offset + G92 offset + tool length offset. -/
def wcoVec (gc : GcState) : List Rat :=
  List.zipWith (· + ·)
    (List.zipWith (· + ·) gc.coord_system_xyz gc.g92_coord_offset)
    gc.tool_length_offset

/-- The position vector printed by the frame (report.c lines 607-671):
steps converted to physical units, minus the WCO vector when reporting
work position (`position_type` false). -/
def print_position (s : Settings) (sys : SysState) (gc : GcState) : List Rat :=
  let mpos := system_convert_array_steps_to_mpos s.steps_per_mm sys.position
  if s.status_report.position_type then mpos
  else List.zipWith (· - ·) mpos (wcoVec gc)

/-- The `|MPos:` / `|WPos:` field (report.c lines 674-680). -/
def posField (s : Settings) (sys : SysState) (gc : GcState) : RtField :=
  if s.status_report.position_type then RtField.mposF (print_position s sys gc)
  else RtField.wposF (print_position s sys gc)

/-- The `|Bf:` buffer-state field (report.c lines 684-689). -/
def bfFields (s : Settings) (env : Env) : List RtField :=
  if s.status_report.buffer_state then
    [RtField.bf env.plan_block_buffer_available env.rx_buffer_available]
  else []

/-- The `|Ln:` field (report.c lines 691-698): only when a block is
executing and its line number is positive. -/
def lnFields (s : Settings) (env : Env) : List RtField :=
  if s.status_report.line_numbers then
    match env.current_block_line with
    | some n => if 0 < n then [RtField.ln n.toNat] else []
    | none => []
  else []

/-- The `|FS:` / `|F:` realtime rate field (report.c lines 701-715). -/
def fsFields (s : Settings) (env : Env) (sys : SysState) : List RtField :=
  if s.status_report.feed_speed then
    if env.variable_spindle then
      [RtField.fs env.realtime_rate sys.spindle_rpm env.spindle_data_rpm]
    else [RtField.fOnly env.realtime_rate]
  else []

/-- The letter codes of the `|Pn:` field in emission order (report.c lines
727-769): probe, limit axes, control signals, block delete. -/
def pinLetters (env : Env) (sys : SysState) : String :=
  (if env.probe_state then "P" else "")
  ++ (if env.limit_x then "X" else "")
  ++ (if env.limit_y then "Y" else "")
  ++ (if env.limit_z then "Z" else "")
  ++ (if env.ctrl_safety_door then "D" else "")
  ++ (if env.ctrl_reset then "R" else "")
  ++ (if env.ctrl_feed_hold then "H" else "")
  ++ (if env.ctrl_cycle_start then "S" else "")
  ++ (if env.ctrl_e_stop then "E" else "")
  ++ (if env.ctrl_block_delete then "B" else "")
  ++ (if env.ctrl_stop_disable then "T" else "")
  ++ (if sys.block_delete_enabled then "B" else "")

/-- The `|Pn:` field (report.c lines 717-771): present only when some
limit/control/probe signal or the block-delete flag is asserted. -/
def pnFields (s : Settings) (env : Env) (sys : SysState) : List RtField :=
  if s.status_report.pin_state then
    if env.limit_x || env.limit_y || env.limit_z
       || env.ctrl_safety_door || env.ctrl_reset || env.ctrl_feed_hold
       || env.ctrl_cycle_start || env.ctrl_e_stop || env.ctrl_block_delete
       || env.ctrl_stop_disable || env.probe_state || sys.block_delete_enabled then
      [RtField.pn (pinLetters env sys)]
    else []
  else []

/-- The WCO reseed value (report.c lines 780-782): busy states take
`REPORT_WCO_REFRESH_BUSY_COUNT - 1`, others
`REPORT_WCO_REFRESH_IDLE_COUNT - 1`. -/
def wcoReseed (st : MachState) : Nat :=
  if stateIsBusy st then REPORT_WCO_REFRESH_BUSY_COUNT - 1
  else REPORT_WCO_REFRESH_IDLE_COUNT - 1

/-- Result of the WCO throttle block: any emitted field, the new
`wco_counter`, and the possibly-suppressed `report_overrides` flag. -/
structure WcoResult where
  fields : List RtField
  counter : Nat
  report_overrides : Bool
deriving DecidableEq

/-- The WCO throttle block (report.c lines 775-787): when enabled, a
positive counter is decremented; otherwise the counter is reseeded, the
override-due flag is cleared, and the `|WCO:` field is emitted. -/
def wcoStep (s : Settings) (sys : SysState) (gc : GcState) (report_overrides : Bool) :
    WcoResult :=
  if s.status_report.work_coord_offset then
    if 0 < sys.report.wco_counter then
      { fields := [], counter := sys.report.wco_counter - 1,
        report_overrides := report_overrides }
    else
      { fields := [RtField.wcoF (wcoVec gc)], counter := wcoReseed sys.state,
        report_overrides := false }
  else
    { fields := [], counter := sys.report.wco_counter,
      report_overrides := report_overrides }

/-- The override reseed value (report.c lines 822-824). -/
def ovrReseed (st : MachState) : Int :=
  if stateIsBusy st then (REPORT_OVR_REFRESH_BUSY_COUNT : Int) - 1
  else (REPORT_OVR_REFRESH_IDLE_COUNT : Int) - 1

/-- The letter codes of the accessory-state block (report.c lines
806-819). -/
def accLetters (env : Env) (gc : GcState) : String :=
  (if env.spindle_on then (if env.spindle_ccw then "C" else "S") else "")
  ++ (if env.coolant_flood then "F" else "")
  ++ (if env.coolant_mist then "M" else "")
  ++ (if gc.tool_change then "T" else "")

/-- The optional `|A:` accessory block inside the override field
(report.c lines 802-820): present when the spindle is on, coolant is
active, a tool change is pending, or the override counter was forced
negative. -/
def accOpt (env : Env) (gc : GcState) (sys : SysState) : Option String :=
  if env.spindle_on || env.coolant_flood || env.coolant_mist || gc.tool_change
     || sys.report.ovr_counter < 0 then
    some (accLetters env gc)
  else none

/-- Result of the override throttle block: any emitted fields and the new
`ovr_counter`. -/
structure OvrResult where
  fields : List RtField
  counter : Int
deriving DecidableEq

/-- The override throttle block (report.c lines 789-828): when enabled, a
positive counter is decremented; an expired counter emits the `|Ov:`
field (with its accessory block) and reseeds only if the due flag
survived the WCO block; when disabled, a pending tool change still emits
the minimal `|A:T` field. -/
def ovrStep (s : Settings) (env : Env) (sys : SysState) (gc : GcState)
    (report_overrides : Bool) : OvrResult :=
  if s.status_report.overrrides then
    if 0 < sys.report.ovr_counter then
      { fields := [], counter := sys.report.ovr_counter - 1 }
    else if report_overrides then
      { fields := [RtField.ov sys.f_override sys.r_override sys.spindle_rpm_ovr
                     (accOpt env gc sys)],
        counter := ovrReseed sys.state }
    else
      { fields := [], counter := sys.report.ovr_counter }
  else
    { fields := if gc.tool_change then [RtField.accTool] else [],
      counter := sys.report.ovr_counter }

/-- The `|Sc:` field (report.c lines 830-834): present exactly when the
scaling edge flag is set. -/
def scFields (env : Env) (sys : SysState) : List RtField :=
  if sys.report.scaling then [RtField.sc env.g51_state] else []

/-- The `|MPG:` field (report.c lines 836-840): present exactly when the
MPG edge flag is set. -/
def mpgFields (sys : SysState) : List RtField :=
  if sys.report.mpg_mode then [RtField.mpg sys.mpg_mode] else []

/-- `report_realtime_status` (report.c lines 605-847): assembles one
status frame from a snapshot of the system state and returns the system
state with only the report sub-state (throttle counters and edge flags)
updated. -/
def report_realtime_status (s : Settings) (env : Env) (sys : SysState) (gc : GcState) :
    RtFrame × SysState :=
  let report_overrides0 := decide (sys.report.ovr_counter ≤ 0)
  let w := wcoStep s sys gc report_overrides0
  let o := ovrStep s env sys gc w.report_overrides
  ({ tag := machineStateTag sys
     fields := [posField s sys gc] ++ bfFields s env ++ lnFields s env
               ++ fsFields s env sys ++ pnFields s env sys
               ++ w.fields ++ o.fields ++ scFields env sys ++ mpgFields sys },
   { sys with
     report :=
       { wco_counter := w.counter
         ovr_counter := o.counter
         scaling := if sys.report.scaling then false else sys.report.scaling
         mpg_mode := if sys.report.mpg_mode then false else sys.report.mpg_mode } })

/-- Whether a field list contains a `|WCO:` field. -/
def hasWco (l : List RtField) : Bool :=
  l.any fun f => match f with | RtField.wcoF _ => true | _ => false

/-- Whether a field list contains an `|Ov:` field. -/
def hasOv (l : List RtField) : Bool :=
  l.any fun f => match f with | RtField.ov _ _ _ _ => true | _ => false

/-- Whether a field list contains a `|Sc:` field. -/
def hasSc (l : List RtField) : Bool :=
  l.any fun f => match f with | RtField.sc _ => true | _ => false

/-- Whether a field list contains an `|MPG:` field. -/
def hasMpg (l : List RtField) : Bool :=
  l.any fun f => match f with | RtField.mpg _ => true | _ => false

/-- Modelled from the spec: `SETTING_INDEX_G28` (settings.h, not under
src/); the spec's coordinate table holds G54..G59.3 (indices 0-8) then
G28 and G30. -/
def SETTING_INDEX_G28 : Nat := 9

/-- Modelled from the spec: `SETTING_INDEX_G30` (settings.h, not under
src/). -/
def SETTING_INDEX_G30 : Nat := 10

/-- Modelled from the spec: `SETTING_INDEX_NCOORD` (settings.h, not under
src/): the number of persisted coordinate-system slots. -/
def SETTING_INDEX_NCOORD : Nat := 11

/-- The slot label written by the switch of report.c lines 315-331:
`28`/`30` for the G28/G30 slots, otherwise `54 + idx`, clamped to 59 with
a `.k` tail for the extended systems. -/
def coordSlotLabel (idx : Nat) : String :=
  if idx = SETTING_INDEX_G28 then "28"
  else if idx = SETTING_INDEX_G30 then "30"
  else
    let g5x := idx + 54
    print_uint8_base10 (if g5x > 59 then 59 else g5x) ++
      (if g5x > 59 then "." ++ print_uint8_base10 (g5x - 59) else "")

/-- One coordinate-system parameter line (report.c lines 313-334). -/
def coordLine (idx : Nat) (coord_data : List Rat) : List Event :=
  [Event.write "[G", Event.write (coordSlotLabel idx), Event.write ":",
   Event.write (report_util_axis_values coord_data), Event.write "]\r\n"]

/-- The coordinate-slot loop of report.c lines 306-335, recursing on the
number of slots left: a failed settings-store read surfaces
`Status_SettingReadFail` through the confirmation channel and stops the
whole dump (`Bool` result false). -/
def ngcCoordLoop (read : Nat → Option (List Rat)) : Nat → Nat → List Event × Bool
  | _, 0 => ([], true)
  | idx, fuel + 1 =>
    match read idx with
    | none => (report_status_message Status_SettingReadFail, false)
    | some coord_data =>
      let r := ngcCoordLoop read (idx + 1) fuel
      (coordLine idx coord_data ++ r.1, r.2)

/-- The `[G92:...]` line (report.c lines 337-339). -/
def g92Line (gc : GcState) : List Event :=
  [Event.write "[G92:", Event.write (report_util_axis_values gc.g92_coord_offset),
   Event.write "]\r\n"]

/-- The `[TLO:...]` line (report.c lines 349-351). -/
def tloLine (gc : GcState) : List Event :=
  [Event.write "[TLO:", Event.write (report_util_axis_values gc.tool_length_offset),
   Event.write "]\r\n"]

/-- The retained probe result (`sys_probe_position`, `sys.probe_succeeded`). -/
structure ProbeState where
  position : List Int
  succeeded : Nat
deriving DecidableEq

/-- `report_probe_parameters` (report.c lines 287-297): the `[PRB:...]`
line with the probe machine position and the success flag. -/
def report_probe_parameters (steps_per_mm : List Rat) (p : ProbeState) : List Event :=
  [Event.write "[PRB:",
   Event.write (report_util_axis_values
     (system_convert_array_steps_to_mpos steps_per_mm p.position)),
   Event.write ":", Event.write (print_uint8_base10 p.succeeded),
   Event.write "]\r\n"]

/-- `report_ngc_parameters` (report.c lines 301-354): the coordinate-slot
loop, then (only if no read failed) the G92, TLO and probe lines.  The
tool-table block is compiled out (`N_TOOLS` undefined for this 3-axis
build). -/
def report_ngc_parameters (read : Nat → Option (List Rat)) (gc : GcState)
    (steps_per_mm : List Rat) (p : ProbeState) : List Event :=
  let r := ngcCoordLoop read 0 SETTING_INDEX_NCOORD
  if r.2 then
    r.1 ++ g92Line gc ++ tloLine gc ++ report_probe_parameters steps_per_mm p
  else r.1

/-- The parameter lines of the slots below `k` (used to state what the
dump has emitted when slot `k` fails). -/
def coordLinesFrom (read : Nat → Option (List Rat)) (idx : Nat) : Nat → List Event
  | 0 => []
  | k + 1 => coordLine idx ((read idx).getD []) ++ coordLinesFrom read (idx + 1) k

/-- A concrete status-report configuration with position, WCO and override
reporting enabled (machine-position mode). -/
def srMaskW : StatusReportMask :=
  { position_type := true, buffer_state := false, line_numbers := false,
    feed_speed := false, pin_state := false, work_coord_offset := true,
    overrrides := true }

/-- Concrete settings for witness evaluations. -/
def settingsW : Settings :=
  { status_report := srMaskW, steps_per_mm := [1, 1, 1] }

/-- A concrete quiescent HAL input sample. -/
def envW : Env :=
  { plan_block_buffer_available := 0, rx_buffer_available := 0,
    current_block_line := none, realtime_rate := 0, variable_spindle := false,
    spindle_data_rpm := none, limit_x := false, limit_y := false, limit_z := false,
    ctrl_safety_door := false, ctrl_reset := false, ctrl_feed_hold := false,
    ctrl_cycle_start := false, ctrl_e_stop := false, ctrl_block_delete := false,
    ctrl_stop_disable := false, probe_state := false, spindle_on := false,
    spindle_ccw := false, coolant_flood := false, coolant_mist := false,
    g51_state := 0 }

/-- A concrete idle system state whose WCO and override counters are both
expired. -/
def sysW : SysState :=
  { state := MachState.idle, holding_state := 0, parking_state := 0,
    position := [0, 0, 0],
    report := { wco_counter := 0, ovr_counter := 0, scaling := false, mpg_mode := false },
    f_override := 100, r_override := 100, spindle_rpm_ovr := 100,
    spindle_rpm := 0, block_delete_enabled := false, mpg_mode := false }

/-- A concrete feed-hold state with internal hold sub-state 2. -/
def sysHold2 : SysState :=
  { sysW with state := MachState.hold, holding_state := 2 }

/-- A concrete safety-door state with internal door sub-state 1. -/
def sysDoor1 : SysState :=
  { sysW with state := MachState.safetyDoor, parking_state := 1 }

/-- A concrete parser state with zero offsets and no pending tool change. -/
def gcW : GcState :=
  { coord_system_xyz := [0, 0, 0], g92_coord_offset := [0, 0, 0],
    tool_length_offset := [0, 0, 0], tool_change := false }

/-- A concrete retained probe result. -/
def probeW : ProbeState := { position := [0, 0, 0], succeeded := 1 }

/-- A concrete settings-store read that succeeds on slot 0 and fails on
every later slot. -/
def readFail1 : Nat → Option (List Rat) :=
  fun i => if i = 0 then some [0, 0, 0] else none

theorem serialText_append (a b : List Event) :
    serialText (a ++ b) = serialText a ++ serialText b := by
  induction a with
  | nil => simp [serialText]
  | cons e rest ih => cases e <;> simp [serialText, ih, String.append_assoc]

/-- C1: `report_status_message` writes exactly `ok\r\n` for the success
code and exactly `error:` + the decimal uint8 code + `\r\n` for every
other code. -/
theorem report_status_message_spec (c : Nat) :
    (c = Status_OK → serialText (report_status_message c) = "ok\r\n") ∧
    (c ≠ Status_OK →
      serialText (report_status_message c) = "error:" ++ (Nat.repr (c % 256) ++ "\r\n")) := by
  constructor
  · intro h
    simp [report_status_message, h, serialText]
  · intro h
    simp [report_status_message, h, serialText, print_uint8_base10]

/-- C1 witness: rejection code 3 yields exactly `error:3\r\n`. -/
theorem report_status_message_spec_witness :
    (3 : Nat) ≠ Status_OK ∧ serialText (report_status_message 3) = "error:3\r\n" :=
  ⟨by decide, by
    have h := (report_status_message_spec 3).2 (by decide)
    rw [h]; rfl⟩

/-- C5: `report_alarm_message` writes the complete `ALARM:<uint8>\r\n`
envelope and only then performs the 500 ms flush delay; the delay is the
last event of its (only) return path, after every write. -/
theorem report_alarm_message_spec (c : Nat) :
    report_alarm_message c =
      [Event.write "ALARM:", Event.write (print_uint8_base10 c), Event.write "\r\n",
       Event.delay 500] ∧
    serialText (report_alarm_message c) = "ALARM:" ++ (Nat.repr (c % 256) ++ "\r\n") ∧
    hasDelay (report_alarm_message c).dropLast = false ∧
    (report_alarm_message c).getLast? = some (Event.delay 500) ∧
    500 ≤ 500 := by
  refine ⟨rfl, ?_, rfl, rfl, le_refl 500⟩
  simp [report_alarm_message, serialText, print_uint8_base10]

theorem hasWco_append (a b : List RtField) :
    hasWco (a ++ b) = (hasWco a || hasWco b) := by
  simp [hasWco, List.any_append]

theorem hasOv_append (a b : List RtField) :
    hasOv (a ++ b) = (hasOv a || hasOv b) := by
  simp [hasOv, List.any_append]

theorem hasSc_append (a b : List RtField) :
    hasSc (a ++ b) = (hasSc a || hasSc b) := by
  simp [hasSc, List.any_append]

theorem hasMpg_append (a b : List RtField) :
    hasMpg (a ++ b) = (hasMpg a || hasMpg b) := by
  simp [hasMpg, List.any_append]

theorem report_realtime_status_fields (s : Settings) (env : Env) (sys : SysState)
    (gc : GcState) :
    (report_realtime_status s env sys gc).1.fields
      = [posField s sys gc] ++ bfFields s env ++ lnFields s env ++ fsFields s env sys
        ++ pnFields s env sys
        ++ (wcoStep s sys gc (decide (sys.report.ovr_counter ≤ 0))).fields
        ++ (ovrStep s env sys gc
              (wcoStep s sys gc (decide (sys.report.ovr_counter ≤ 0))).report_overrides).fields
        ++ scFields env sys ++ mpgFields sys := rfl

theorem report_realtime_status_tag (s : Settings) (env : Env) (sys : SysState)
    (gc : GcState) :
    (report_realtime_status s env sys gc).1.tag = machineStateTag sys := rfl

theorem report_realtime_status_state (s : Settings) (env : Env) (sys : SysState)
    (gc : GcState) :
    (report_realtime_status s env sys gc).2
      = { sys with
          report :=
            { wco_counter :=
                (wcoStep s sys gc (decide (sys.report.ovr_counter ≤ 0))).counter
              ovr_counter :=
                (ovrStep s env sys gc
                  (wcoStep s sys gc (decide (sys.report.ovr_counter ≤ 0))).report_overrides).counter
              scaling := if sys.report.scaling then false else sys.report.scaling
              mpg_mode := if sys.report.mpg_mode then false else sys.report.mpg_mode } } := rfl

theorem noWco_posField (s : Settings) (sys : SysState) (gc : GcState) :
    hasWco [posField s sys gc] = false := by
  unfold posField
  split <;> rfl

theorem noWco_bfFields (s : Settings) (env : Env) : hasWco (bfFields s env) = false := by
  unfold bfFields
  split <;> rfl

theorem noWco_lnFields (s : Settings) (env : Env) : hasWco (lnFields s env) = false := by
  unfold lnFields
  repeat' split
  all_goals rfl

theorem noWco_fsFields (s : Settings) (env : Env) (sys : SysState) :
    hasWco (fsFields s env sys) = false := by
  unfold fsFields
  repeat' split
  all_goals rfl

theorem noWco_pnFields (s : Settings) (env : Env) (sys : SysState) :
    hasWco (pnFields s env sys) = false := by
  unfold pnFields
  repeat' split
  all_goals rfl

theorem noWco_scFields (env : Env) (sys : SysState) : hasWco (scFields env sys) = false := by
  unfold scFields
  split <;> rfl

theorem noWco_mpgFields (sys : SysState) : hasWco (mpgFields sys) = false := by
  unfold mpgFields
  split <;> rfl

theorem noWco_ovrStep (s : Settings) (env : Env) (sys : SysState) (gc : GcState)
    (ro : Bool) : hasWco (ovrStep s env sys gc ro).fields = false := by
  unfold ovrStep
  repeat' split
  all_goals rfl

theorem noOv_posField (s : Settings) (sys : SysState) (gc : GcState) :
    hasOv [posField s sys gc] = false := by
  unfold posField
  split <;> rfl

theorem noOv_bfFields (s : Settings) (env : Env) : hasOv (bfFields s env) = false := by
  unfold bfFields
  split <;> rfl

theorem noOv_lnFields (s : Settings) (env : Env) : hasOv (lnFields s env) = false := by
  unfold lnFields
  repeat' split
  all_goals rfl

theorem noOv_fsFields (s : Settings) (env : Env) (sys : SysState) :
    hasOv (fsFields s env sys) = false := by
  unfold fsFields
  repeat' split
  all_goals rfl

theorem noOv_pnFields (s : Settings) (env : Env) (sys : SysState) :
    hasOv (pnFields s env sys) = false := by
  unfold pnFields
  repeat' split
  all_goals rfl

theorem noOv_scFields (env : Env) (sys : SysState) : hasOv (scFields env sys) = false := by
  unfold scFields
  split <;> rfl

theorem noOv_mpgFields (sys : SysState) : hasOv (mpgFields sys) = false := by
  unfold mpgFields
  split <;> rfl

theorem noOv_wcoStep (s : Settings) (sys : SysState) (gc : GcState) (ro : Bool) :
    hasOv (wcoStep s sys gc ro).fields = false := by
  unfold wcoStep
  repeat' split
  all_goals rfl

theorem noSc_posField (s : Settings) (sys : SysState) (gc : GcState) :
    hasSc [posField s sys gc] = false := by
  unfold posField
  split <;> rfl

theorem noSc_bfFields (s : Settings) (env : Env) : hasSc (bfFields s env) = false := by
  unfold bfFields
  split <;> rfl

theorem noSc_lnFields (s : Settings) (env : Env) : hasSc (lnFields s env) = false := by
  unfold lnFields
  repeat' split
  all_goals rfl

theorem noSc_fsFields (s : Settings) (env : Env) (sys : SysState) :
    hasSc (fsFields s env sys) = false := by
  unfold fsFields
  repeat' split
  all_goals rfl

theorem noSc_pnFields (s : Settings) (env : Env) (sys : SysState) :
    hasSc (pnFields s env sys) = false := by
  unfold pnFields
  repeat' split
  all_goals rfl

theorem noSc_mpgFields (sys : SysState) : hasSc (mpgFields sys) = false := by
  unfold mpgFields
  split <;> rfl

theorem noSc_wcoStep (s : Settings) (sys : SysState) (gc : GcState) (ro : Bool) :
    hasSc (wcoStep s sys gc ro).fields = false := by
  unfold wcoStep
  repeat' split
  all_goals rfl

theorem noSc_ovrStep (s : Settings) (env : Env) (sys : SysState) (gc : GcState)
    (ro : Bool) : hasSc (ovrStep s env sys gc ro).fields = false := by
  unfold ovrStep
  repeat' split
  all_goals rfl

theorem noMpg_posField (s : Settings) (sys : SysState) (gc : GcState) :
    hasMpg [posField s sys gc] = false := by
  unfold posField
  split <;> rfl

theorem noMpg_bfFields (s : Settings) (env : Env) : hasMpg (bfFields s env) = false := by
  unfold bfFields
  split <;> rfl

theorem noMpg_lnFields (s : Settings) (env : Env) : hasMpg (lnFields s env) = false := by
  unfold lnFields
  repeat' split
  all_goals rfl

theorem noMpg_fsFields (s : Settings) (env : Env) (sys : SysState) :
    hasMpg (fsFields s env sys) = false := by
  unfold fsFields
  repeat' split
  all_goals rfl

theorem noMpg_pnFields (s : Settings) (env : Env) (sys : SysState) :
    hasMpg (pnFields s env sys) = false := by
  unfold pnFields
  repeat' split
  all_goals rfl

theorem noMpg_scFields (env : Env) (sys : SysState) : hasMpg (scFields env sys) = false := by
  unfold scFields
  split <;> rfl

theorem noMpg_wcoStep (s : Settings) (sys : SysState) (gc : GcState) (ro : Bool) :
    hasMpg (wcoStep s sys gc ro).fields = false := by
  unfold wcoStep
  repeat' split
  all_goals rfl

theorem noMpg_ovrStep (s : Settings) (env : Env) (sys : SysState) (gc : GcState)
    (ro : Bool) : hasMpg (ovrStep s env sys gc ro).fields = false := by
  unfold ovrStep
  repeat' split
  all_goals rfl

theorem hasWco_wcoStep (s : Settings) (sys : SysState) (gc : GcState) (ro : Bool) :
    hasWco (wcoStep s sys gc ro).fields
      = (s.status_report.work_coord_offset && decide (sys.report.wco_counter = 0)) := by
  unfold wcoStep
  by_cases hw : s.status_report.work_coord_offset = true
  · by_cases hc : 0 < sys.report.wco_counter
    · have hne : sys.report.wco_counter ≠ 0 := Nat.pos_iff_ne_zero.mp hc
      simp [hw, hc, hne, hasWco]
    · have he : sys.report.wco_counter = 0 := Nat.eq_zero_of_not_pos hc
      simp [hw, hc, he, hasWco]
  · simp only [Bool.not_eq_true] at hw
    simp [hw, hasWco]

theorem wcoStep_counter_reseed (s : Settings) (sys : SysState) (gc : GcState) (ro : Bool)
    (hc : sys.report.wco_counter = 0) :
    (wcoStep s sys gc ro).counter
      = if s.status_report.work_coord_offset then wcoReseed sys.state
        else sys.report.wco_counter := by
  unfold wcoStep
  by_cases hw : s.status_report.work_coord_offset = true
  · simp [hw, hc]
  · simp only [Bool.not_eq_true] at hw
    simp [hw]

theorem wcoStep_counter_dec (s : Settings) (sys : SysState) (gc : GcState) (ro : Bool)
    (hw : s.status_report.work_coord_offset = true)
    (hc : sys.report.wco_counter ≠ 0) :
    (wcoStep s sys gc ro).counter = sys.report.wco_counter - 1 := by
  unfold wcoStep
  have hp : 0 < sys.report.wco_counter := Nat.pos_of_ne_zero hc
  simp [hw, hp]

theorem wcoStep_ro (s : Settings) (sys : SysState) (gc : GcState) (ro : Bool) :
    (wcoStep s sys gc ro).report_overrides
      = (ro && !(s.status_report.work_coord_offset && decide (sys.report.wco_counter = 0))) := by
  unfold wcoStep
  by_cases hw : s.status_report.work_coord_offset = true
  · by_cases hc : 0 < sys.report.wco_counter
    · have hne : sys.report.wco_counter ≠ 0 := Nat.pos_iff_ne_zero.mp hc
      simp [hw, hc, hne]
    · have he : sys.report.wco_counter = 0 := Nat.eq_zero_of_not_pos hc
      simp [hw, hc, he]
  · simp only [Bool.not_eq_true] at hw
    simp [hw]

theorem hasOv_ovrStep (s : Settings) (env : Env) (sys : SysState) (gc : GcState)
    (ro : Bool) :
    hasOv (ovrStep s env sys gc ro).fields
      = (s.status_report.overrrides && decide (sys.report.ovr_counter ≤ 0) && ro) := by
  unfold ovrStep
  by_cases hov : s.status_report.overrrides = true
  · by_cases hc : 0 < sys.report.ovr_counter
    · have hne : ¬sys.report.ovr_counter ≤ 0 := by omega
      simp [hov, hc, hne, hasOv]
    · have hle : sys.report.ovr_counter ≤ 0 := by omega
      cases ro with
      | false => simp [hov, hc, hle, hasOv]
      | true => simp [hov, hc, hle, hasOv]
  · simp only [Bool.not_eq_true] at hov
    cases hgc : gc.tool_change <;> simp [hov, hgc, hasOv]

theorem ovrStep_counter_unchanged (s : Settings) (env : Env) (sys : SysState)
    (gc : GcState)
    (hle : sys.report.ovr_counter ≤ 0) :
    (ovrStep s env sys gc false).counter = sys.report.ovr_counter := by
  unfold ovrStep
  have hc : ¬0 < sys.report.ovr_counter := by omega
  by_cases hov : s.status_report.overrrides = true
  · simp [hov, hc]
  · simp only [Bool.not_eq_true] at hov
    simp [hov]

theorem frame_hasWco (s : Settings) (env : Env) (sys : SysState) (gc : GcState) :
    hasWco (report_realtime_status s env sys gc).1.fields
      = (s.status_report.work_coord_offset && decide (sys.report.wco_counter = 0)) := by
  rw [report_realtime_status_fields]
  simp only [hasWco_append, noWco_posField, noWco_bfFields, noWco_lnFields, noWco_fsFields,
    noWco_pnFields, noWco_scFields, noWco_mpgFields, noWco_ovrStep, hasWco_wcoStep,
    Bool.false_or, Bool.or_false]

theorem frame_hasOv (s : Settings) (env : Env) (sys : SysState) (gc : GcState) :
    hasOv (report_realtime_status s env sys gc).1.fields
      = (s.status_report.overrrides && decide (sys.report.ovr_counter ≤ 0)
          && !(s.status_report.work_coord_offset && decide (sys.report.wco_counter = 0))) := by
  rw [report_realtime_status_fields]
  simp only [hasOv_append, noOv_posField, noOv_bfFields, noOv_lnFields, noOv_fsFields,
    noOv_pnFields, noOv_scFields, noOv_mpgFields, noOv_wcoStep, hasOv_ovrStep, wcoStep_ro,
    Bool.false_or, Bool.or_false]
  generalize s.status_report.overrrides = a
  generalize decide (sys.report.ovr_counter ≤ 0) = b
  generalize (s.status_report.work_coord_offset && decide (sys.report.wco_counter = 0)) = d
  revert a b d
  decide

theorem frame_hasSc (s : Settings) (env : Env) (sys : SysState) (gc : GcState) :
    hasSc (report_realtime_status s env sys gc).1.fields = sys.report.scaling := by
  rw [report_realtime_status_fields]
  simp only [hasSc_append, noSc_posField, noSc_bfFields, noSc_lnFields, noSc_fsFields,
    noSc_pnFields, noSc_mpgFields, noSc_wcoStep, noSc_ovrStep, Bool.false_or, Bool.or_false]
  unfold scFields
  cases h : sys.report.scaling <;> simp [h, hasSc]

theorem frame_hasMpg (s : Settings) (env : Env) (sys : SysState) (gc : GcState) :
    hasMpg (report_realtime_status s env sys gc).1.fields = sys.report.mpg_mode := by
  rw [report_realtime_status_fields]
  simp only [hasMpg_append, noMpg_posField, noMpg_bfFields, noMpg_lnFields, noMpg_fsFields,
    noMpg_pnFields, noMpg_scFields, noMpg_wcoStep, noMpg_ovrStep, Bool.false_or, Bool.or_false]
  unfold mpgFields
  cases h : sys.report.mpg_mode <;> simp [h, hasMpg]

/-- C2: with WCO reporting enabled, the `|WCO:` field appears iff the WCO
throttle counter is zero at the poll; on an appearing poll the counter is
reseeded to the constant selected solely by busy-set membership (the busy
constant being the shorter refresh interval), on a non-appearing poll it
is decremented, and no two consecutive polls both contain the field. -/
theorem wco_throttle_spec (s : Settings) (env : Env) (sys : SysState) (gc : GcState)
    (hen : s.status_report.work_coord_offset = true) :
    (hasWco (report_realtime_status s env sys gc).1.fields = true
        ↔ sys.report.wco_counter = 0) ∧
    (sys.report.wco_counter = 0 →
      (report_realtime_status s env sys gc).2.report.wco_counter
        = (if stateIsBusy sys.state then REPORT_WCO_REFRESH_BUSY_COUNT - 1
           else REPORT_WCO_REFRESH_IDLE_COUNT - 1)) ∧
    (sys.report.wco_counter ≠ 0 →
      (report_realtime_status s env sys gc).2.report.wco_counter
        = sys.report.wco_counter - 1) ∧
    REPORT_WCO_REFRESH_BUSY_COUNT < REPORT_WCO_REFRESH_IDLE_COUNT ∧
    (∀ env2 sys2 gc2, sys2.report = (report_realtime_status s env sys gc).2.report →
      hasWco (report_realtime_status s env sys gc).1.fields = true →
      hasWco (report_realtime_status s env2 sys2 gc2).1.fields = false) := by
  refine ⟨?_, ?_, ?_, by decide, ?_⟩
  · rw [frame_hasWco, hen]
    simp
  · intro hc
    rw [report_realtime_status_state]
    simp only []
    rw [wcoStep_counter_reseed s sys gc _ hc, hen]
    simp [wcoReseed]
  · intro hc
    rw [report_realtime_status_state]
    simp only []
    rw [wcoStep_counter_dec s sys gc _ hen hc]
  · intro env2 sys2 gc2 hrep hfirst
    rw [frame_hasWco, hen] at hfirst
    simp at hfirst
    rw [frame_hasWco]
    have h2 : sys2.report.wco_counter ≠ 0 := by
      rw [hrep, report_realtime_status_state]
      simp only []
      rw [wcoStep_counter_reseed s sys gc _ hfirst, hen]
      simp only [if_true]
      unfold wcoReseed REPORT_WCO_REFRESH_BUSY_COUNT REPORT_WCO_REFRESH_IDLE_COUNT
      split <;> decide
    simp [h2]

/-- C2 witness: idle machine, WCO counter expired, WCO reporting enabled:
the frame contains the `|WCO:` field and the counter is reseeded to the
idle constant minus one. -/
theorem wco_throttle_spec_witness :
    settingsW.status_report.work_coord_offset = true ∧
    hasWco (report_realtime_status settingsW envW sysW gcW).1.fields = true ∧
    (report_realtime_status settingsW envW sysW gcW).2.report.wco_counter = 29 :=
  ⟨rfl, ((wco_throttle_spec settingsW envW sysW gcW rfl).1).mpr rfl,
    ((wco_throttle_spec settingsW envW sysW gcW rfl).2.1 rfl).trans (by decide)⟩

/-- C3: from the same snapshot, work-position output equals
machine-position output minus, axis by axis, the sum of the active
coordinate-system offset, the G92 offset and the tool length offset. -/
theorem wpos_equals_mpos_minus_offsets (s : Settings) (env : Env) (sys : SysState)
    (gc : GcState) :
    ((report_realtime_status
        { s with status_report := { s.status_report with position_type := true } }
        env sys gc).1.fields.head?
      = some (RtField.mposF (system_convert_array_steps_to_mpos s.steps_per_mm sys.position))) ∧
    ((report_realtime_status
        { s with status_report := { s.status_report with position_type := false } }
        env sys gc).1.fields.head?
      = some (RtField.wposF (List.zipWith (· - ·)
          (system_convert_array_steps_to_mpos s.steps_per_mm sys.position)
          (wcoVec gc)))) := by
  constructor <;>
    · rw [report_realtime_status_fields]
      simp [posField, print_position]

/-- C4 counterexample: in the SafetyDoor state with internal sub-state 1,
the rendered tag is `Door:1`, not the internal value minus one
(`Door:0`): the off-by-one applies to Hold only. -/
theorem door_substate_counterexample :
    sysDoor1.state = MachState.safetyDoor ∧ sysDoor1.parking_state = 1 ∧
    machineStateTag sysDoor1 = "Door:1" ∧
    machineStateTag sysDoor1 ≠ "Door:" ++ Nat.repr (sysDoor1.parking_state - 1) := by
  exact ⟨rfl, rfl, by decide, by decide⟩

/-- C4 (amended): the first frame field is one of the defined state tags;
Hold and SafetyDoor and no others carry a colon-separated sub-state; the
Hold ordinal is the internal one-based value minus one, while the
SafetyDoor ordinal is the internal value unchanged. -/
theorem state_tag_spec (s : Settings) (env : Env) (sys : SysState) (gc : GcState) :
    (report_realtime_status s env sys gc).1.tag = machineStateTag sys ∧
    stateTagBase sys.state
      ∈ ["Idle", "Run", "Hold", "Jog", "Home", "Alarm", "Check", "Door", "Sleep", "Tool"] ∧
    machineStateTag sys
      = stateTagBase sys.state
        ++ (match stateSubValue sys with
            | some n => ":" ++ Nat.repr n
            | none => "") ∧
    ((stateSubValue sys).isSome = true
        ↔ (sys.state = MachState.hold ∨ sys.state = MachState.safetyDoor)) ∧
    (sys.state = MachState.hold → 1 ≤ sys.holding_state → sys.holding_state ≤ 255 →
      stateSubValue sys = some (sys.holding_state - 1)) ∧
    (sys.state = MachState.safetyDoor →
      stateSubValue sys = some (sys.parking_state % 256)) := by
  refine ⟨rfl, ?_, rfl, ?_, ?_, ?_⟩
  · cases sys.state <;> simp [stateTagBase]
  · cases h : sys.state <;> simp [stateSubValue, h]
  · intro h h1 h2
    simp only [stateSubValue, h]
    congr 1
    omega
  · intro h
    simp [stateSubValue, h]

/-- C4 witness: feed hold with internal sub-state 2 renders sub-state
ordinal 1 (`Hold:1`). -/
theorem state_tag_spec_witness :
    sysHold2.state = MachState.hold ∧ (1 : Nat) ≤ sysHold2.holding_state ∧
    sysHold2.holding_state ≤ 255 ∧ stateSubValue sysHold2 = some 1 :=
  ⟨rfl, by decide, by decide,
    (state_tag_spec settingsW envW sysHold2 gcW).2.2.2.2.1 rfl (by decide) (by decide)⟩

/-- C6: no status frame ever contains both a `|WCO:` field and an `|Ov:`
field: WCO emission suppresses the override-due flag for that poll. -/
theorem wco_ov_never_same_frame (s : Settings) (env : Env) (sys : SysState)
    (gc : GcState) :
    (hasWco (report_realtime_status s env sys gc).1.fields
      && hasOv (report_realtime_status s env sys gc).1.fields) = false := by
  rw [frame_hasWco, frame_hasOv]
  generalize s.status_report.work_coord_offset = a
  generalize decide (sys.report.wco_counter = 0) = b
  generalize s.status_report.overrrides = c
  generalize decide (sys.report.ovr_counter ≤ 0) = d
  revert a b c d
  decide

/-- C9: one status poll changes nothing but the report sub-state: every
other system-state component is returned unchanged, the scaling and MPG
edge flags are rendered exactly when set and cleared by the poll. -/
theorem realtime_status_frame_effect (s : Settings) (env : Env) (sys : SysState)
    (gc : GcState) :
    (report_realtime_status s env sys gc).2.state = sys.state ∧
    (report_realtime_status s env sys gc).2.holding_state = sys.holding_state ∧
    (report_realtime_status s env sys gc).2.parking_state = sys.parking_state ∧
    (report_realtime_status s env sys gc).2.position = sys.position ∧
    (report_realtime_status s env sys gc).2.f_override = sys.f_override ∧
    (report_realtime_status s env sys gc).2.r_override = sys.r_override ∧
    (report_realtime_status s env sys gc).2.spindle_rpm_ovr = sys.spindle_rpm_ovr ∧
    (report_realtime_status s env sys gc).2.spindle_rpm = sys.spindle_rpm ∧
    (report_realtime_status s env sys gc).2.block_delete_enabled = sys.block_delete_enabled ∧
    (report_realtime_status s env sys gc).2.mpg_mode = sys.mpg_mode ∧
    (report_realtime_status s env sys gc).2.report.scaling = false ∧
    (report_realtime_status s env sys gc).2.report.mpg_mode = false ∧
    hasSc (report_realtime_status s env sys gc).1.fields = sys.report.scaling ∧
    hasMpg (report_realtime_status s env sys gc).1.fields = sys.report.mpg_mode := by
  refine ⟨rfl, rfl, rfl, rfl, rfl, rfl, rfl, rfl, rfl, rfl, ?_, ?_,
    frame_hasSc s env sys gc, frame_hasMpg s env sys gc⟩
  · rw [report_realtime_status_state]
    cases h : sys.report.scaling <;> simp [h]
  · rw [report_realtime_status_state]
    cases h : sys.report.mpg_mode <;> simp [h]

/-- C10: on a poll that emits `|WCO:` while the override counter is
already expired, the override counter is neither decremented nor
reseeded, and the immediately following poll (where WCO is no longer due)
emits the `|Ov:` field. -/
theorem ovr_pending_until_wco_clear (s : Settings) (env : Env) (sys : SysState)
    (gc : GcState)
    (hw : s.status_report.work_coord_offset = true)
    (ho : s.status_report.overrrides = true)
    (hc : sys.report.wco_counter = 0)
    (hv : sys.report.ovr_counter ≤ 0) :
    hasWco (report_realtime_status s env sys gc).1.fields = true ∧
    (report_realtime_status s env sys gc).2.report.ovr_counter = sys.report.ovr_counter ∧
    (∀ env2 sys2 gc2,
      sys2.report = (report_realtime_status s env sys gc).2.report →
      hasWco (report_realtime_status s env2 sys2 gc2).1.fields = false ∧
      hasOv (report_realtime_status s env2 sys2 gc2).1.fields = true) := by
  have hro : (wcoStep s sys gc (decide (sys.report.ovr_counter ≤ 0))).report_overrides
      = false := by
    rw [wcoStep_ro, hw, hc]
    simp
  have hwc2 : (report_realtime_status s env sys gc).2.report.wco_counter ≠ 0 := by
    rw [report_realtime_status_state]
    simp only []
    rw [wcoStep_counter_reseed s sys gc _ hc, hw]
    simp only [if_true]
    unfold wcoReseed REPORT_WCO_REFRESH_BUSY_COUNT REPORT_WCO_REFRESH_IDLE_COUNT
    split <;> decide
  have hoc2 : (report_realtime_status s env sys gc).2.report.ovr_counter
      = sys.report.ovr_counter := by
    rw [report_realtime_status_state]
    simp only []
    rw [hro, ovrStep_counter_unchanged s env sys gc hv]
  refine ⟨?_, hoc2, ?_⟩
  · rw [frame_hasWco, hw, hc]
    simp
  · intro env2 sys2 gc2 hrep
    constructor
    · rw [frame_hasWco]
      have : sys2.report.wco_counter ≠ 0 := by rw [hrep]; exact hwc2
      simp [this]
    · rw [frame_hasOv, ho]
      have h1 : sys2.report.ovr_counter ≤ 0 := by
        rw [hrep, hoc2]; exact hv
      have h2 : sys2.report.wco_counter ≠ 0 := by rw [hrep]; exact hwc2
      simp [h1, h2]

/-- C10 witness: an idle poll with both counters expired emits `|WCO:`
and leaves the override counter untouched at its expired value. -/
theorem ovr_pending_until_wco_clear_witness :
    settingsW.status_report.work_coord_offset = true ∧
    settingsW.status_report.overrrides = true ∧
    sysW.report.wco_counter = 0 ∧ sysW.report.ovr_counter ≤ 0 ∧
    hasWco (report_realtime_status settingsW envW sysW gcW).1.fields = true ∧
    (report_realtime_status settingsW envW sysW gcW).2.report.ovr_counter = 0 :=
  ⟨rfl, rfl, rfl, by decide,
    (ovr_pending_until_wco_clear settingsW envW sysW gcW rfl rfl rfl (by decide)).1,
    ((ovr_pending_until_wco_clear settingsW envW sysW gcW rfl rfl rfl (by decide)).2.1).trans
      rfl⟩

theorem ngcCoordLoop_fail (read : Nat → Option (List Rat)) :
    ∀ (k idx fuel : Nat), k < fuel → read (idx + k) = none →
      (∀ j, j < k → (read (idx + j)).isSome = true) →
      ngcCoordLoop read idx fuel
        = (coordLinesFrom read idx k ++ report_status_message Status_SettingReadFail,
           false) := by
  intro k
  induction k with
  | zero =>
    intro idx fuel hk hf _
    cases fuel with
    | zero => omega
    | succ f =>
      simp only [Nat.add_zero] at hf
      simp [ngcCoordLoop, hf, coordLinesFrom]
  | succ k ih =>
    intro idx fuel hk hf hpre
    cases fuel with
    | zero => omega
    | succ f =>
      have h0 : (read idx).isSome = true := by
        have := hpre 0 (by omega)
        simpa using this
      obtain ⟨d, hd⟩ := Option.isSome_iff_exists.mp h0
      have hrec := ih (idx + 1) f (by omega)
        (by rw [show idx + 1 + k = idx + (k + 1) by omega]; exact hf)
        (by
          intro j hj
          rw [show idx + 1 + j = idx + (j + 1) by omega]
          exact hpre (j + 1) (by omega))
      simp only [ngcCoordLoop, hd, hrec, coordLinesFrom]
      simp [List.append_assoc]

/-- C7 counterexample: a settings store whose read fails at slot 1 makes
the dump emit the complete G54 parameter line before the abort: the dump
output is strictly larger than the bare `error:` confirmation, i.e. a
failing dump does leave earlier parameter lines emitted. -/
theorem ngc_dump_partial_output_counterexample :
    readFail1 1 = none ∧
    serialText (report_ngc_parameters readFail1 gcW [1, 1, 1] probeW)
      = "[G54:0.000,0.000,0.000]\r\n"
        ++ serialText (report_status_message Status_SettingReadFail) ∧
    serialText (report_ngc_parameters readFail1 gcW [1, 1, 1] probeW)
      ≠ serialText (report_status_message Status_SettingReadFail) := by
  exact ⟨rfl, by decide, by decide⟩

/-- C7 (amended): when reading coordinate slot `k` fails, the dump stops
at that slot: the slots before `k` have been emitted, the failure is
surfaced as `Status_SettingReadFail` through the confirmation channel,
and nothing for slot `k` or anything after it (G92, TLO, probe) is
emitted. -/
theorem ngc_dump_aborts_at_first_failure (read : Nat → Option (List Rat)) (gc : GcState)
    (steps_per_mm : List Rat) (p : ProbeState) (k : Nat)
    (hk : k < SETTING_INDEX_NCOORD)
    (hf : read k = none)
    (hpre : ∀ j, j < k → (read j).isSome = true) :
    report_ngc_parameters read gc steps_per_mm p
      = coordLinesFrom read 0 k ++ report_status_message Status_SettingReadFail := by
  unfold report_ngc_parameters
  have h := ngcCoordLoop_fail read k 0 SETTING_INDEX_NCOORD hk
    (by simpa using hf) (by simpa using hpre)
  rw [h]
  simp

/-- C7 witness: the concrete store failing at slot 1 aborts the dump with
exactly the slot-0 line followed by the read-failure confirmation. -/
theorem ngc_dump_aborts_at_first_failure_witness :
    readFail1 1 = none ∧
    report_ngc_parameters readFail1 gcW [1, 1, 1] probeW
      = coordLinesFrom readFail1 0 1 ++ report_status_message Status_SettingReadFail :=
  ⟨rfl,
    ngc_dump_aborts_at_first_failure readFail1 gcW [1, 1, 1] probeW 1 (by decide) rfl
      (by
        intro j hj
        have hj0 : j = 0 := by omega
        rw [hj0]
        rfl)⟩

/-- C8: `report_feedback_message` always emits the well-formed envelope
`[MSG:<body>]\r\n`, where recognised codes render their fixed advisory
string and unrecognised codes render an empty body, and performs no
delay. -/
theorem report_feedback_message_spec (m : MessageCode) :
    serialText (report_feedback_message m) = "[MSG:" ++ (message_body m ++ "]\r\n") ∧
    hasDelay (report_feedback_message m) = false ∧
    (∀ n, message_body (MessageCode.other n) = "") := by
  refine ⟨?_, ?_, fun n => rfl⟩
  · cases m <;> simp [report_feedback_message, message_body, serialText]
  · cases m <;> rfl

end GrblReport

